import Mathlib

/- Formal model of the Twilio–LiveKit audio bridge in webhook_server.py.

   The codec functions mirror CPython's audioop module (Modules/audioop.c),
   which the server calls as audioop.ulaw2lin, audioop.lin2ulaw,
   audioop.tomono and audioop.ratecv, always with 16-bit samples (width 2).
   Linear samples are Int in the int16 range; companded byte values are Nat
   below 256.  Fallible audioop calls return Option: none models the call
   raising audioop.error. -/

/-- Mu-law segment end table from audioop.c (seg_uend). -/
def seg_uend : List Int := [0x3F, 0x7F, 0xFF, 0x1FF, 0x3FF, 0x7FF, 0xFFF, 0x1FFF]

/-- Mirror of audioop's `search`: the index of the first table entry that
    `val` fits under, or the table size when none does. -/
def ulawSearch (val : Int) : Nat := seg_uend.findIdx (fun t => decide (val ≤ t))

/-- Mirror of audioop's `st_14linear2ulaw`: compand one 14-bit linear sample
    (the caller passes the 16-bit sample arithmetically shifted right by two)
    into one mu-law byte.  CLIP = 8159 and BIAS = 0x84, so BIAS >> 2 = 33. -/
def st_14linear2ulaw (pcm_val : Int) : Nat :=
  let mask : Nat := if pcm_val < 0 then 0x7F else 0xFF
  let mag : Int := if pcm_val < 0 then -pcm_val else pcm_val
  let clipped : Int := if mag > 8159 then 8159 else mag
  let biased : Int := clipped + 33
  let seg : Nat := ulawSearch biased
  if 8 ≤ seg then 0x7F ^^^ mask
  else ((seg <<< 4) ||| ((biased.toNat >>> (seg + 1)) &&& 0xF)) ^^^ mask

/-- Mirror of audioop's `st_ulaw2linear16` table, computed by the G.711
    formula the table is generated from: complement the byte, rebuild the
    biased mantissa, shift it by the segment and subtract the bias. -/
def st_ulaw2linear16 (c : Nat) : Int :=
  let u : Nat := 255 - (c % 256)
  let t : Nat := (((u &&& 0xF) <<< 3) + 0x84) <<< ((u &&& 0x70) >>> 4)
  if u &&& 0x80 = 0 then (t : Int) - 0x84 else 0x84 - (t : Int)

/-- audioop.ulaw2lin with width 2: decode each mu-law byte to an int16 sample. -/
def ulaw2lin (bs : List Nat) : List Int := bs.map st_ulaw2linear16

/-- audioop.lin2ulaw with width 2: compand each int16 sample; the C code
    computes st_14linear2ulaw(sample >> 2), and the arithmetic right shift of
    a signed value is floor division by 4. -/
def lin2ulaw (vs : List Int) : List Nat :=
  vs.map (fun v => st_14linear2ulaw (Int.fdiv v 4))

/-- Split an interleaved sample list into frames of `n` samples (one sample
    per channel), structurally recursive on a fuel that starts at the list
    length (each step consumes at least one element, so the fuel never runs
    out).  Callers guarantee n ≥ 1 and a length divisible by n. -/
def chunkFramesGo (n : Nat) : Nat → List Int → List (List Int)
  | _, [] => []
  | 0, _ :: _ => []
  | fuel + 1, x :: xs => (x :: xs.take (n - 1)) :: chunkFramesGo n fuel (xs.drop (n - 1))

/-- Split an interleaved sample list into frames of `n` samples. -/
def chunkFrames (n : Nat) (l : List Int) : List (List Int) :=
  chunkFramesGo n l.length l

/-- The emit phase of ratecv's main loop: while d ≥ 0, output one
    interpolated sample per channel and step d down by the gcd-reduced input
    rate.  C computes (prev*d + cur*(outrate-d))/outrate in double precision
    and truncates toward zero on the int cast, then converts the 32-bit
    intermediate back to int16 with an arithmetic shift (floor division by
    2^16); the double arithmetic is exact at the magnitudes involved, so
    truncated integer division models the cast.  The fuel argument starts at
    d.toNat + 1, which bounds the iteration count because each pass decreases
    d by inr ≥ 1. -/
def emitLoop (inr outr : Nat) (prev cur : List Int) : Nat → Int → List Int × Int
  | 0, d => ([], d)
  | fuel + 1, d =>
    if d < 0 then ([], d)
    else
      let outs := List.zipWith
        (fun p c => Int.fdiv (Int.tdiv (p * d + c * ((outr : Int) - d)) (outr : Int)) 65536)
        prev cur
      let r := emitLoop inr outr prev cur fuel (d - (inr : Int))
      (outs ++ r.1, r.2)

/-- Saved resampler state: the step accumulator d and the previous and
    current sample per channel (scaled by 2^16), exactly the tuple ratecv
    returns for reuse on the next call. -/
structure RatecvState where
  d : Int
  prev : List Int
  cur : List Int
deriving DecidableEq

/-- Main loop of audioop's ratecv over whole input frames.  The C loop
    alternates a consume-while-d<0 phase with an emit-while-d≥0 phase; every
    initial or saved state has d < 0, so each iteration consumes exactly one
    input frame (prev := cur; cur := sample << 16; d += outrate) and then
    emits while d ≥ 0.  When the input runs out, the state is saved and
    returned.  The digital-filter smoothing step is the identity at the
    default weights weightA = 1, weightB = 0 the server uses. -/
def ratecvGo (inr outr : Nat) : List (List Int) → Int → List Int → List Int → List Int × RatecvState
  | [], d, prev0, cur0 => ([], ⟨d, prev0, cur0⟩)
  | f :: rest, d, _, cur0 =>
    let prev := cur0
    let cur := f.map (fun v => v * 65536)
    let dNew := d + (outr : Int)
    let burst := emitLoop inr outr prev cur (dNew.toNat + 1) dNew
    let r := ratecvGo inr outr rest burst.2 prev cur
    (burst.1 ++ r.1, r.2)

/-- audioop.ratecv with width 2: validate the arguments (audioop raises on a
    bad channel count, a non-positive rate, or input that is not a whole
    number of frames), reduce the rates by their gcd, and run the conversion
    loop from the fresh state (d = -outrate, prev = cur = 0) that passing
    None as the state denotes. -/
def audioop_ratecv (nchannels inrate outrate : Nat) (xs : List Int) :
    Option (List Int × RatecvState) :=
  if nchannels = 0 then none
  else if inrate = 0 then none
  else if outrate = 0 then none
  else if xs.length % nchannels ≠ 0 then none
  else
    let g := Nat.gcd inrate outrate
    let inr := inrate / g
    let outr := outrate / g
    some (ratecvGo inr outr (chunkFrames nchannels xs) (-(outr : Int))
      (List.replicate nchannels 0) (List.replicate nchannels 0))

/-- Clamp to int16 exactly as audioop's fbound does for width 2: values
    above 32767 clamp to 32767, values below -32767 clamp to -32768. -/
def fbound16 (v : Int) : Int :=
  if v > 32767 then 32767 else if v < -32767 then -32768 else v

/-- audioop.tomono with width 2 and both factors 1, as the server calls it:
    each stereo pair collapses to the saturated sum of its two samples.
    audioop raises "not a whole number of frames" on an odd sample count. -/
def tomono : List Int → Option (List Int)
  | [] => some []
  | [_] => none
  | l :: r :: rest => (tomono rest).map (fun t => fbound16 (l * 1 + r * 1) :: t)

/-- One PCM frame delivered by the room transport to an egress relay task,
    plus the environment's verdict on the subsequent websocket send:
    sendOk = false models ws.send_text raising, which the per-frame
    try/except catches. -/
structure RoomFrame where
  sample_rate : Nat
  num_channels : Nat
  samples : List Int
  sendOk : Bool
deriving DecidableEq

/-- The relay's resample step exactly as the code performs it on every frame
    (webhook_server.py lines 214–222): audioop.ratecv(pcm, 2, nch, rate,
    8000, None), keeping the converted samples and discarding the returned
    state. -/
def relayResampleFresh (nch rate : Nat) (pcm : List Int) : Option (List Int) :=
  (audioop_ratecv nch rate 8000 pcm).map Prod.fst

/-- The per-frame egress transform of stream_agent_audio_to_twilio
    (webhook_server.py lines 207–229): resample with a fresh ratecv state
    when the frame's rate is not 8000, then fold stereo to mono with tomono,
    then compand with lin2ulaw.  none models a per-frame exception raised by
    one of the audioop calls. -/
def processFrame (f : RoomFrame) : Option (List Nat) :=
  (if f.sample_rate ≠ 8000 then relayResampleFresh f.num_channels f.sample_rate f.samples
   else some f.samples).bind
    (fun pcm =>
      (if f.num_channels = 2 then tomono pcm else some pcm).map lin2ulaw)

/-- Observable outcome of one iteration of the egress relay loop: either a
    media wire signal carrying the companded bytes was written to the duplex
    connection, or the frame was skipped because the iteration's try/except
    caught a per-frame exception. -/
inductive RelayEvent where
  | mediaSent (mulaw : List Nat)
  | frameSkipped
deriving DecidableEq

/-- The egress relay loop (the async-for of stream_agent_audio_to_twilio,
    webhook_server.py lines 204–245): each frame is processed and sent inside
    a try/except that logs and falls through on any exception, so the loop
    produces one event per frame and moves on to the next frame either way. -/
def stream_agent_audio_to_twilio : List RoomFrame → List RelayEvent
  | [] => []
  | f :: rest =>
    (match processFrame f with
      | none => RelayEvent.frameSkipped
      | some mulaw =>
        if f.sendOk then RelayEvent.mediaSent mulaw else RelayEvent.frameSkipped)
      :: stream_agent_audio_to_twilio rest

/-- Following the claim's wording for the egress pipeline order, for
    comparison with processFrame: first fold stereo to mono by averaging
    paired samples, then resample when the rate differs from the 8000 Hz wire
    rate, then compand. -/
def avgFold : List Int → Option (List Int)
  | [] => some []
  | [_] => none
  | l :: r :: rest => (avgFold rest).map (fun t => Int.fdiv (l + r) 2 :: t)

/-- Following the claim's wording (claimed pipeline order), for comparison
    with processFrame. -/
def claimOrderEgress (f : RoomFrame) : Option (List Nat) :=
  (if f.num_channels = 2 then avgFold f.samples else some f.samples).bind
    (fun pcm =>
      (if f.sample_rate ≠ 8000 then relayResampleFresh 1 f.sample_rate pcm
       else some pcm).map lin2ulaw)

/- Call Bridge Session model: the media_stream websocket handler
   (webhook_server.py lines 126–302).  The handler's receive loop is a
   single-threaded fold over the incoming wire signals; external outcomes
   (room connect, track publish, handler registration, capture_frame) are
   fault-injection flags on the events.  The spec's AWAITING_START state is
   audio_source = false with the loop running; BRIDGING is audio_source =
   true with the loop running; leaving the loop reaches the finally block
   (STOPPING), after which the session is CLOSED. -/

/-- One decoded media wire signal's payload: either the base64 decode raises
    (badBase64), or it yields companded bytes, with captureOk = false
    modelling audio_source.capture_frame raising when the room port cannot
    accept the frame. -/
inductive MediaEvt where
  | badBase64
  | chunk (bs : List Nat) (captureOk : Bool)
deriving DecidableEq

/-- One item the receive loop obtains per iteration.  disconnectEvt:
    websocket.receive_text raises WebSocketDisconnect.  unparseable:
    json.loads raises JSONDecodeError.  nonObjectJson: json.loads succeeds
    but yields a non-dict value, so data.get raises AttributeError.
    start carries the stream and call identifiers, the room name from the
    custom parameters, and the outcomes of room.connect, publish_track and
    the handler registration.  otherEvent is a dict whose event field matches
    no branch. -/
inductive TwilioMsg where
  | disconnectEvt
  | unparseable
  | nonObjectJson
  | start (streamSid callSid roomName : String) (connectOk publishOk registerOk : Bool)
  | media (payload : Option MediaEvt)
  | stop
  | otherEvent
deriving DecidableEq

/-- The handler's local state: call_sid and the captured stream_sid, whether
    a Room object exists (room is not None), whether the audio source exists
    (audio_source is not None), and whether the track_subscribed handler was
    registered. -/
structure SessState where
  call_sid : Option String
  stream_sid : Option String
  room : Bool
  audio_source : Bool
  handlerRegistered : Bool
deriving DecidableEq

/-- Locals before the first message: call_sid = None, room = None,
    audio_source = None. -/
def initState : SessState := ⟨none, none, false, false, false⟩

/-- Externally visible actions the handler performs.  awaitCaptureFrame
    records that the receive loop awaited audio_source.capture_frame on the
    decoded samples (ok = false when the call raised); roomDisconnect and
    registryDiscard are the finally-block teardown actions (room.disconnect
    and active_calls.discard). -/
inductive Effect where
  | connectAttempt (roomName : String)
  | publishAttempt
  | registerHandlerAttempt
  | awaitCaptureFrame (pcm : List Int) (ok : Bool)
  | roomDisconnect
  | registryDiscard (sid : String)
deriving DecidableEq

/-- How the receive loop ended: a stop event, a WebSocketDisconnect, or the
    generic `except Exception` handler breaking the loop. -/
inductive ExitReason where
  | stopped
  | disconnected
  | errored
deriving DecidableEq

/-- Result of one loop iteration: continue with the next message, or leave
    the loop (break). -/
inductive StepOut where
  | next (s : SessState) (effs : List Effect)
  | halt (s : SessState) (effs : List Effect) (why : ExitReason)
deriving DecidableEq

/-- One iteration of the receive loop (webhook_server.py lines 142–292),
    dispatching on the parsed event exactly as the code does.  On start, the
    Room object is created before connect, audio_source is created after a
    successful connect and before publish, and any exception from connect,
    publish or registration reaches the generic handler, which breaks the
    loop.  On media, nothing at all happens unless audio_source exists; a
    base64 failure or a capture failure is caught by the inner handler and
    the loop continues with the state unchanged. -/
def step (s : SessState) : TwilioMsg → StepOut
  | .disconnectEvt => .halt s [] .disconnected
  | .unparseable => .next s []
  | .nonObjectJson => .halt s [] .errored
  | .start streamSid callSid roomName cOk pOk rOk =>
    let s1 : SessState :=
      { s with stream_sid := some streamSid, call_sid := some callSid, room := true }
    if cOk = false then .halt s1 [Effect.connectAttempt roomName] .errored
    else
      let s2 := { s1 with audio_source := true }
      if pOk = false then
        .halt s2 [Effect.connectAttempt roomName, Effect.publishAttempt] .errored
      else if rOk = false then
        .halt s2 [Effect.connectAttempt roomName, Effect.publishAttempt,
          Effect.registerHandlerAttempt] .errored
      else
        .next { s2 with handlerRegistered := true }
          [Effect.connectAttempt roomName, Effect.publishAttempt,
            Effect.registerHandlerAttempt]
  | .media payload =>
    if s.audio_source then
      match payload with
      | some (.chunk bs ok) => .next s [Effect.awaitCaptureFrame (ulaw2lin bs) ok]
      | some .badBase64 => .next s []
      | none => .next s []
    else .next s []
  | .stop => .halt s [] .stopped
  | .otherEvent => .next s []

/-- The receive loop folded over the messages the connection delivers:
    returns the final locals, the effect trace, and how (or whether yet) the
    loop exited; messages after a break are never read. -/
def runLoop (s : SessState) : List TwilioMsg → SessState × List Effect × Option ExitReason
  | [] => (s, [], none)
  | m :: rest =>
    match step s m with
    | .next s1 effs =>
      let r := runLoop s1 rest
      (r.1, effs ++ r.2.1, r.2.2)
    | .halt s1 effs why => (s1, effs, some why)

/-- The finally block (webhook_server.py lines 294–302): disconnect the room
    if a Room object exists, then discard call_sid from active_calls if it
    was ever set. -/
def cleanup (s : SessState) : List Effect :=
  (if s.room then [Effect.roomDisconnect] else []) ++
    (match s.call_sid with
     | some sid => [Effect.registryDiscard sid]
     | none => [])

/-- The whole media_stream handler: run the receive loop over the session's
    message sequence, then run the finally block exactly once on the locals
    the loop left behind. -/
def media_stream (msgs : List TwilioMsg) : List Effect × SessState × Option ExitReason :=
  let r := runLoop initState msgs
  (r.2.1 ++ cleanup r.1, r.1, r.2.2)

/-- The process-wide active_calls set, threaded through the handlers that
    touch it.  The incoming-call webhook (webhook_server.py line 74) adds the
    call identifier. -/
def incoming_call (reg : Finset String) (callSid : String) : Finset String :=
  insert callSid reg

/-- The call-status webhook (webhook_server.py lines 305–327): discard the
    call from active_calls when the reported status is terminal. -/
def call_status (reg : Finset String) (callSid status : String) : Finset String :=
  if status ∈ ["completed", "failed", "busy", "no-answer", "canceled"]
  then reg.erase callSid else reg

/-- Replay the registry mutations an effect trace performs on active_calls:
    only registryDiscard touches it. -/
def registryAfter (reg : Finset String) : List Effect → Finset String
  | [] => reg
  | e :: rest =>
    registryAfter
      (match e with
       | .registryDiscard sid => reg.erase sid
       | _ => reg) rest

set_option maxRecDepth 4096 in
/-- One mu-law byte's decode–encode round trip always lands on a byte with
    the same decoded linear value.  (The only byte not mapped to itself is
    the negative-zero code 0x7F, which re-encodes to the positive-zero code
    0xFF; both decode to the linear sample 0.) -/
theorem ulaw_roundtrip_byte : ∀ c : Fin 256,
    st_ulaw2linear16 (st_14linear2ulaw (Int.fdiv (st_ulaw2linear16 c.val) 4)) =
      st_ulaw2linear16 c.val := by decide

/-- C7: the decompand and compand maps are pure functions (deterministic by
    construction), and for every valid companded byte sequence x, companding
    the decompanded samples yields a byte sequence that decodes to exactly
    the same linear samples as x: the round-trip error in the linear domain
    is zero, within the codec's inherent quantization. -/
theorem companding_roundtrip_bounded (xs : List (Fin 256)) :
    ulaw2lin (lin2ulaw (ulaw2lin (xs.map Fin.val))) = ulaw2lin (xs.map Fin.val) := by
  simp only [ulaw2lin, lin2ulaw, List.map_map]
  refine List.map_congr_left ?_
  intro c _
  simpa [Function.comp] using ulaw_roundtrip_byte c

/-- Concrete 48 kHz mono frame used to exhibit the missing resampler-state
    carry (seven samples; frame length in the code is arbitrary). -/
def c2Frame : List Int := [100, 200, 300, 400, 500, 600, 700]

/-- C2 counterexample: resampling two consecutive frames the way the relay
    does (a fresh None state on every call) yields [100, 700] for each one,
    but resampling their concatenation as one unit yields [100, 700, 600].
    The concatenated per-frame outputs have four samples where the unit
    resample has three, so no per-sample quantization tolerance reconciles
    them: the second frame is not resampled with the state produced by the
    first. -/
theorem resample_concat_counterexample :
    relayResampleFresh 1 48000 c2Frame = some [100, 700]
    ∧ relayResampleFresh 1 48000 (c2Frame ++ c2Frame) = some [100, 700, 600]
    ∧ (([100, 700] ++ [100, 700] : List Int)).length ≠ ([100, 700, 600] : List Int).length :=
  ⟨rfl, rfl, by decide⟩

/-- C2 (amended): the relay carries no resampler state between frames — every
    frame is converted by ratecv from the fresh None state and the returned
    state is discarded — so the relay's output over a concatenation of frame
    sequences is the concatenation of the outputs computed independently:
    egress processing is memoryless across frames, and phase continuity
    across consecutive frames does not hold in general. -/
theorem relay_resample_memoryless (a b : List RoomFrame) :
    stream_agent_audio_to_twilio (a ++ b)
      = stream_agent_audio_to_twilio a ++ stream_agent_audio_to_twilio b := by
  induction a with
  | nil => rfl
  | cons f rest ih => simp [stream_agent_audio_to_twilio, ih]

/-- Stereo wire-rate frame on which summing and averaging the pair differ
    after companding. -/
def c4Frame : RoomFrame := ⟨8000, 2, [20000, 30000], true⟩

/-- C4 counterexample: on the stereo wire-rate frame (20000, 30000) the code
    produces companded byte 128 (the saturated sum 32767, companded), while
    the pipeline as claimed — fold to mono by averaging first, then resample,
    then compand — produces byte 135 (the average 25000, companded): the code
    follows neither the claimed order nor the claimed fold. -/
theorem egress_order_counterexample :
    processFrame c4Frame = some [128]
    ∧ claimOrderEgress c4Frame = some [135]
    ∧ processFrame c4Frame ≠ claimOrderEgress c4Frame :=
  ⟨rfl, rfl, by decide⟩

/-- C4 (amended): for every frame consumed by an egress relay task the
    pipeline order is: resample first when the frame's rate differs from the
    8000 Hz wire rate (from a fresh state), then fold stereo to mono by the
    saturated sum of paired samples (tomono with both factors 1, not an
    average), and compand last. -/
theorem egress_pipeline_order (rate : Nat) (xs : List Int) (ok : Bool)
    (hr : rate ≠ 8000) :
    processFrame ⟨8000, 2, xs, ok⟩ = (tomono xs).map lin2ulaw
    ∧ processFrame ⟨rate, 1, xs, ok⟩ = (relayResampleFresh 1 rate xs).map lin2ulaw
    ∧ processFrame ⟨rate, 2, xs, ok⟩
        = (relayResampleFresh 2 rate xs).bind (fun p => (tomono p).map lin2ulaw) := by
  refine ⟨?_, ?_, ?_⟩
  · simp [processFrame]
  · cases h : relayResampleFresh 1 rate xs <;> simp [processFrame, hr, h]
  · simp [processFrame, hr]

/-- C4 amended witness at the concrete rate 48000. -/
theorem egress_pipeline_order_witness :
    (48000 ≠ 8000)
    ∧ (processFrame ⟨8000, 2, [20000, 30000], true⟩ = (tomono [20000, 30000]).map lin2ulaw
      ∧ processFrame ⟨48000, 1, [20000, 30000], true⟩
          = (relayResampleFresh 1 48000 [20000, 30000]).map lin2ulaw
      ∧ processFrame ⟨48000, 2, [20000, 30000], true⟩
          = (relayResampleFresh 2 48000 [20000, 30000]).bind
              (fun p => (tomono p).map lin2ulaw)) :=
  ⟨by decide, egress_pipeline_order 48000 [20000, 30000] true (by decide)⟩

/-- The relay loop produces exactly one event per room frame: it never stops
    before the track's frame sequence does. -/
theorem relay_length (fs : List RoomFrame) :
    (stream_agent_audio_to_twilio fs).length = fs.length := by
  induction fs with
  | nil => rfl
  | cons f rest ih => simp [stream_agent_audio_to_twilio, ih]

/-- C9: a per-frame exception — the frame failing to transcode, or the
    websocket send failing — only skips that frame: the relay loop emits
    frameSkipped for it and continues with the remaining frames of the
    track, still producing one event per frame, so neither the relay task
    nor the session ends because of it. -/
theorem relay_skips_only_bad_frame (f : RoomFrame) (rest : List RoomFrame)
    (h : processFrame f = none ∨ f.sendOk = false) :
    stream_agent_audio_to_twilio (f :: rest)
        = RelayEvent.frameSkipped :: stream_agent_audio_to_twilio rest
    ∧ (stream_agent_audio_to_twilio (f :: rest)).length = rest.length + 1 := by
  constructor
  · rcases h with h | h
    · simp [stream_agent_audio_to_twilio, h]
    · cases hp : processFrame f <;> simp [stream_agent_audio_to_twilio, hp, h]
  · simpa using relay_length (f :: rest)

/-- A frame audioop rejects (stereo with an odd sample count), followed by a
    good mono wire-rate frame. -/
def c9BadFrame : RoomFrame := ⟨8000, 2, [5], true⟩

/-- A well-formed mono wire-rate frame. -/
def c9GoodFrame : RoomFrame := ⟨8000, 1, [1000], true⟩

/-- C9 witness: the bad frame is skipped and the following good frame is
    still processed and sent. -/
theorem relay_skips_only_bad_frame_witness :
    (processFrame c9BadFrame = none ∨ c9BadFrame.sendOk = false)
    ∧ (stream_agent_audio_to_twilio (c9BadFrame :: [c9GoodFrame])
        = RelayEvent.frameSkipped :: stream_agent_audio_to_twilio [c9GoodFrame]
      ∧ (stream_agent_audio_to_twilio (c9BadFrame :: [c9GoodFrame])).length
          = [c9GoodFrame].length + 1) :=
  ⟨Or.inl rfl, relay_skips_only_bad_frame c9BadFrame [c9GoodFrame] (Or.inl rfl)⟩

/-- The locals a step leaves behind. -/
def StepOut.state : StepOut → SessState
  | .next s _ => s
  | .halt s _ _ => s

/-- The effects one step emits. -/
def StepOut.effs : StepOut → List Effect
  | .next _ e => e
  | .halt _ e _ => e

/-- Recognize the finally-block room release in a trace. -/
def Effect.isRoomDisc : Effect → Bool
  | .roomDisconnect => true
  | _ => false

/-- Recognize the finally-block registry removal in a trace. -/
def Effect.isRegDiscard : Effect → Bool
  | .registryDiscard _ => true
  | _ => false

/-- Recognize a room.connect attempt in a trace. -/
def Effect.isConnect : Effect → Bool
  | .connectAttempt _ => true
  | _ => false

/-- Recognize an awaited capture_frame submission in a trace. -/
def Effect.isAwaitCapture : Effect → Bool
  | .awaitCaptureFrame _ _ => true
  | _ => false

/-- No single loop iteration ever performs a teardown action: room release
    and registry removal live only in the finally block. -/
theorem step_effs_no_teardown (s : SessState) (m : TwilioMsg) :
    ((step s m).effs.countP Effect.isRoomDisc) = 0
    ∧ ((step s m).effs.countP Effect.isRegDiscard) = 0 := by
  cases m with
  | disconnectEvt => exact ⟨rfl, rfl⟩
  | unparseable => exact ⟨rfl, rfl⟩
  | nonObjectJson => exact ⟨rfl, rfl⟩
  | stop => exact ⟨rfl, rfl⟩
  | otherEvent => exact ⟨rfl, rfl⟩
  | start ss cs rn cOk pOk rOk =>
    cases cOk <;> cases pOk <;> cases rOk <;> exact ⟨rfl, rfl⟩
  | media payload =>
    cases hA : s.audio_source with
    | false => simp [step, hA, StepOut.effs]
    | true =>
      rcases payload with _ | evt
      · simp [step, hA, StepOut.effs]
      · cases evt <;>
          simp [step, hA, StepOut.effs, List.countP_cons, Effect.isRoomDisc,
            Effect.isRegDiscard]

/-- Once a Room object and a call_sid exist, no later iteration unsets them. -/
theorem step_keeps_resources (s : SessState) (m : TwilioMsg)
    (h1 : s.room = true) (h2 : s.call_sid.isSome = true) :
    (step s m).state.room = true ∧ (step s m).state.call_sid.isSome = true := by
  cases m with
  | disconnectEvt => exact ⟨h1, h2⟩
  | unparseable => exact ⟨h1, h2⟩
  | nonObjectJson => exact ⟨h1, h2⟩
  | stop => exact ⟨h1, h2⟩
  | otherEvent => exact ⟨h1, h2⟩
  | start ss cs rn cOk pOk rOk =>
    cases cOk <;> cases pOk <;> cases rOk <;> exact ⟨rfl, rfl⟩
  | media payload =>
    cases hA : s.audio_source with
    | false => simpa [step, hA, StepOut.state] using ⟨h1, h2⟩
    | true =>
      rcases payload with _ | evt
      · simpa [step, hA, StepOut.state] using ⟨h1, h2⟩
      · cases evt <;> simpa [step, hA, StepOut.state] using ⟨h1, h2⟩

/-- The whole receive loop performs no teardown action. -/
theorem runLoop_effs_no_teardown (msgs : List TwilioMsg) : ∀ s : SessState,
    ((runLoop s msgs).2.1.countP Effect.isRoomDisc) = 0
    ∧ ((runLoop s msgs).2.1.countP Effect.isRegDiscard) = 0 := by
  induction msgs with
  | nil => intro s; exact ⟨rfl, rfl⟩
  | cons m rest ih =>
    intro s
    have hs := step_effs_no_teardown s m
    cases h : step s m with
    | next s1 effs =>
      rw [h] at hs
      simp only [StepOut.effs] at hs
      simp only [runLoop, h, List.countP_append]
      exact ⟨by rw [hs.1, (ih s1).1], by rw [hs.2, (ih s1).2]⟩
    | halt s1 effs why =>
      rw [h] at hs
      simp only [StepOut.effs] at hs
      simpa only [runLoop, h] using hs

/-- The receive loop preserves an existing Room object and call_sid. -/
theorem runLoop_keeps_resources (msgs : List TwilioMsg) : ∀ s : SessState,
    s.room = true → s.call_sid.isSome = true →
    (runLoop s msgs).1.room = true ∧ (runLoop s msgs).1.call_sid.isSome = true := by
  induction msgs with
  | nil => intro s h1 h2; exact ⟨h1, h2⟩
  | cons m rest ih =>
    intro s h1 h2
    have hs := step_keeps_resources s m h1 h2
    cases h : step s m with
    | next s1 effs =>
      rw [h] at hs
      simp only [StepOut.state] at hs
      simpa only [runLoop, h] using ih s1 hs.1 hs.2
    | halt s1 effs why =>
      rw [h] at hs
      simp only [StepOut.state] at hs
      simpa only [runLoop, h] using hs

/-- When a Room object and a call_sid exist, the finally block releases the
    room exactly once and removes the call from the registry exactly once. -/
theorem cleanup_counts (s : SessState)
    (h1 : s.room = true) (h2 : s.call_sid.isSome = true) :
    ((cleanup s).countP Effect.isRoomDisc) = 1
    ∧ ((cleanup s).countP Effect.isRegDiscard) = 1 := by
  rcases Option.isSome_iff_exists.mp h2 with ⟨sid, hsid⟩
  simp [cleanup, h1, hsid, List.countP_cons, Effect.isRoomDisc, Effect.isRegDiscard]

/-- C3: for a session whose start signal succeeds, the teardown side effects
    (room release and registry removal) occur exactly once in the whole
    session trace, whatever combination of stop signals, peer disconnects,
    internal errors or further messages follows — including two termination
    triggers in close succession. -/
theorem teardown_exactly_once (ss cs rn : String) (rest : List TwilioMsg) :
    ((media_stream (TwilioMsg.start ss cs rn true true true :: rest)).1.countP
        Effect.isRoomDisc) = 1
    ∧ ((media_stream (TwilioMsg.start ss cs rn true true true :: rest)).1.countP
        Effect.isRegDiscard) = 1 := by
  have hstep : step initState (TwilioMsg.start ss cs rn true true true)
      = StepOut.next ⟨some cs, some ss, true, true, true⟩
          [Effect.connectAttempt rn, Effect.publishAttempt,
            Effect.registerHandlerAttempt] := rfl
  have hloop := runLoop_effs_no_teardown rest ⟨some cs, some ss, true, true, true⟩
  have hres := runLoop_keeps_resources rest ⟨some cs, some ss, true, true, true⟩ rfl rfl
  have hcln := cleanup_counts (runLoop ⟨some cs, some ss, true, true, true⟩ rest).1
    hres.1 hres.2
  simp only [media_stream, runLoop, hstep, List.countP_append]
  constructor
  · simp only [hloop.1, hcln.1, List.countP_cons, Effect.isRoomDisc]
    rfl
  · simp only [hloop.2, hcln.2, List.countP_cons, Effect.isRegDiscard]
    rfl

/-- A trace containing no registry removal leaves active_calls unchanged. -/
theorem registryAfter_no_discard (effs : List Effect) : ∀ reg : Finset String,
    effs.countP Effect.isRegDiscard = 0 → registryAfter reg effs = reg := by
  induction effs with
  | nil => intro reg _; rfl
  | cons e rest ih =>
    intro reg h
    rw [List.countP_cons] at h
    cases e
    all_goals first
      | exact ih reg (by simpa [Effect.isRegDiscard] using h)
      | (simp [Effect.isRegDiscard] at h)

/-- C1 counterexample: processing a start signal for call CA1 on the duplex
    connection inserts nothing into active_calls — starting from an empty
    registry, the registry is still empty afterwards rather than holding one
    active entry for CA1 — and the call-status webhook is a further code path
    that removes entries. -/
theorem registry_not_inserted_on_start :
    registryAfter ∅ (runLoop initState
        [TwilioMsg.start "S1" "CA1" "call-CA1" true true true]).2.1 = ∅
    ∧ "CA1" ∉ registryAfter ∅ (runLoop initState
        [TwilioMsg.start "S1" "CA1" "call-CA1" true true true]).2.1
    ∧ call_status (incoming_call ∅ "CA1") "CA1" "completed" = ∅ := by
  refine ⟨rfl, Finset.not_mem_empty _, ?_⟩
  have hm : ("completed" : String) ∈ ["completed", "failed", "busy", "no-answer", "canceled"] := by
    decide
  simp [call_status, incoming_call, hm]

/-- C1 (amended): the Session Registry (active_calls) is inserted into by
    the incoming-call webhook handler before any media stream starts — after
    the webhook handles a call identifier not yet present, the registry
    contains it as exactly one new entry.  The duplex connection's receive
    loop never mutates the registry (processing a start signal, or any other
    wire signal, leaves it unchanged), and entries are removed both by the
    session teardown in the finally block (only the session's own call
    identifier) and by the call-status webhook on a terminal status. -/
theorem registry_mutation_sites (reg : Finset String) (sid : String)
    (s : SessState) (msgs : List TwilioMsg) (h : sid ∉ reg) :
    (incoming_call reg sid).card = reg.card + 1
    ∧ sid ∈ incoming_call reg sid
    ∧ registryAfter reg (runLoop s msgs).2.1 = reg
    ∧ registryAfter reg (cleanup s)
        = (match s.call_sid with | some c => reg.erase c | none => reg)
    ∧ call_status reg sid "completed" = reg.erase sid := by
  refine ⟨Finset.card_insert_of_not_mem h, Finset.mem_insert_self _ _, ?_, ?_, ?_⟩
  · exact registryAfter_no_discard _ reg (runLoop_effs_no_teardown msgs s).2
  · rcases hc : s.call_sid with _ | c <;> cases hr : s.room <;>
      simp [cleanup, registryAfter, hc, hr]
  · have hm : ("completed" : String) ∈ ["completed", "failed", "busy", "no-answer", "canceled"] := by
      decide
    simp [call_status, hm]

/-- C1 amended witness at a concrete registry, call and session. -/
theorem registry_mutation_sites_witness :
    ("CA1" ∉ (∅ : Finset String))
    ∧ ((incoming_call ∅ "CA1").card = (∅ : Finset String).card + 1
      ∧ "CA1" ∈ incoming_call ∅ "CA1"
      ∧ registryAfter ∅ (runLoop initState [TwilioMsg.stop]).2.1 = ∅
      ∧ registryAfter ∅ (cleanup initState)
          = (match initState.call_sid with
             | some c => (∅ : Finset String).erase c
             | none => ∅)
      ∧ call_status ∅ "CA1" "completed" = (∅ : Finset String).erase "CA1") :=
  ⟨Finset.not_mem_empty _,
    registry_mutation_sites ∅ "CA1" initState [TwilioMsg.stop] (Finset.not_mem_empty _)⟩

/-- The locals of a session that has successfully processed its start
    signal: the BRIDGING configuration. -/
def bridgingState : SessState := ⟨some "CA1", some "S1", true, true, true⟩

/-- C5 counterexample: a wire signal whose framing parses as JSON but yields
    a non-object value (for example the text "[1, 2]") reaches data.get,
    raises AttributeError, and lands in the generic exception handler, which
    breaks the receive loop: received while BRIDGING, it terminates the
    session instead of being dropped with the state unchanged. -/
theorem malformed_signal_ends_session :
    (runLoop initState [TwilioMsg.start "S1" "CA1" "call-CA1" true true true,
        TwilioMsg.nonObjectJson]).2.2 = some ExitReason.errored := rfl

/-- C5 (amended): while the session is BRIDGING, a signal whose framing
    fails JSON parsing is dropped with the session state unchanged and the
    loop continuing, and a media signal whose payload is missing or fails
    base64 decoding is likewise dropped with the state unchanged; a signal
    that parses to a non-object JSON value, however, escapes those handlers
    and terminates the session. -/
theorem malformed_dropped_while_bridging (s : SessState) (h : s.audio_source = true) :
    step s TwilioMsg.unparseable = StepOut.next s []
    ∧ step s (TwilioMsg.media (some MediaEvt.badBase64)) = StepOut.next s []
    ∧ step s (TwilioMsg.media none) = StepOut.next s [] := by
  refine ⟨rfl, ?_, ?_⟩ <;> simp [step, h]

/-- C5 amended witness at the concrete BRIDGING state. -/
theorem malformed_dropped_while_bridging_witness :
    (bridgingState.audio_source = true)
    ∧ (step bridgingState TwilioMsg.unparseable = StepOut.next bridgingState []
      ∧ step bridgingState (TwilioMsg.media (some MediaEvt.badBase64))
          = StepOut.next bridgingState []
      ∧ step bridgingState (TwilioMsg.media none) = StepOut.next bridgingState []) :=
  ⟨rfl, malformed_dropped_while_bridging bridgingState rfl⟩

/-- C6 counterexample: processing one media wire signal with a decodable
    payload makes the receive loop await audio_source.capture_frame inline:
    the trace of that single iteration contains an awaited room submission,
    so ingress submission is not fire-and-forget, and no drop counter exists
    for the handler to increment. -/
theorem ingress_submission_awaited :
    ((step bridgingState (TwilioMsg.media (some (MediaEvt.chunk [255] true)))).effs.countP
        Effect.isAwaitCapture) = 1 := rfl

/-- C6 (amended): the receive loop submits each decoded ingress frame by
    awaiting audio_source.capture_frame inline rather than fire-and-forget.
    When the room port cannot accept the frame and capture_frame raises
    (ok = false), the inner exception handler catches it: the frame is
    dropped, no counter is incremented (none exists in the handler's state),
    and the loop continues with the session state unchanged. -/
theorem ingress_submission_behavior (s : SessState) (h : s.audio_source = true)
    (bs : List Nat) (ok : Bool) :
    step s (TwilioMsg.media (some (MediaEvt.chunk bs ok)))
      = StepOut.next s [Effect.awaitCaptureFrame (ulaw2lin bs) ok] := by
  simp [step, h]

/-- C6 amended witness: a failing capture on a concrete payload is dropped
    while the loop continues. -/
theorem ingress_submission_behavior_witness :
    (bridgingState.audio_source = true)
    ∧ step bridgingState (TwilioMsg.media (some (MediaEvt.chunk [255] false)))
        = StepOut.next bridgingState [Effect.awaitCaptureFrame (ulaw2lin [255]) false] :=
  ⟨rfl, ingress_submission_behavior bridgingState rfl [255] false⟩

/-- C8: if room connect, track publish, or handler registration fails while
    the start signal is processed, the receive loop exits at that very
    signal with the generic error exit: the rest of the message sequence is
    never read, connect is attempted exactly once and never retried, no
    audio is ever bridged (the session never reaches BRIDGING behaviour — no
    capture effect occurs in the whole trace), teardown still runs, and the
    only registry entry the failing session removes is its own call
    identifier, leaving every other session's entry alone. -/
theorem start_failure_aborts_session (ss cs rn : String) (cOk pOk rOk : Bool)
    (rest : List TwilioMsg) (reg : Finset String)
    (h : cOk = false ∨ pOk = false ∨ rOk = false) :
    runLoop initState (TwilioMsg.start ss cs rn cOk pOk rOk :: rest)
        = runLoop initState [TwilioMsg.start ss cs rn cOk pOk rOk]
    ∧ (runLoop initState (TwilioMsg.start ss cs rn cOk pOk rOk :: rest)).2.2
        = some ExitReason.errored
    ∧ ((media_stream (TwilioMsg.start ss cs rn cOk pOk rOk :: rest)).1.countP
        Effect.isConnect) = 1
    ∧ ((media_stream (TwilioMsg.start ss cs rn cOk pOk rOk :: rest)).1.countP
        Effect.isAwaitCapture) = 0
    ∧ registryAfter reg (media_stream (TwilioMsg.start ss cs rn cOk pOk rOk :: rest)).1
        = reg.erase cs := by
  cases cOk <;> cases pOk <;> cases rOk
  all_goals first
    | exact ⟨rfl, rfl, rfl, rfl, rfl⟩
    | simp at h

/-- C8 witness: a failed connect on a concrete session aborts it at the
    start signal. -/
theorem start_failure_aborts_session_witness :
    ((false = false ∨ true = false ∨ true = false))
    ∧ (runLoop initState (TwilioMsg.start "S1" "CA1" "call-CA1" false true true
          :: [TwilioMsg.stop])
        = runLoop initState [TwilioMsg.start "S1" "CA1" "call-CA1" false true true]
      ∧ (runLoop initState (TwilioMsg.start "S1" "CA1" "call-CA1" false true true
            :: [TwilioMsg.stop])).2.2 = some ExitReason.errored
      ∧ ((media_stream (TwilioMsg.start "S1" "CA1" "call-CA1" false true true
            :: [TwilioMsg.stop])).1.countP Effect.isConnect) = 1
      ∧ ((media_stream (TwilioMsg.start "S1" "CA1" "call-CA1" false true true
            :: [TwilioMsg.stop])).1.countP Effect.isAwaitCapture) = 0
      ∧ registryAfter ∅ (media_stream (TwilioMsg.start "S1" "CA1" "call-CA1" false true true
            :: [TwilioMsg.stop])).1 = (∅ : Finset String).erase "CA1") :=
  ⟨Or.inl rfl, start_failure_aborts_session "S1" "CA1" "call-CA1" false true true
    [TwilioMsg.stop] ∅ (Or.inl rfl)⟩

/-- C10: before a start signal has been processed, no audio source exists,
    so every media wire signal is silently ignored: the iteration produces
    no effects (its payload is never decoded and nothing is submitted to the
    room), raises nothing, leaves the state unchanged, and the loop keeps
    waiting for the next signal. -/
theorem media_before_start_ignored (s : SessState) (h : s.audio_source = false)
    (payload : Option MediaEvt) :
    step s (TwilioMsg.media payload) = StepOut.next s [] := by
  simp [step, h]

/-- C10 witness: a decodable media signal arriving in the initial state is
    ignored. -/
theorem media_before_start_ignored_witness :
    (initState.audio_source = false)
    ∧ step initState (TwilioMsg.media (some (MediaEvt.chunk [255] true)))
        = StepOut.next initState [] :=
  ⟨rfl, media_before_start_ignored initState rfl (some (MediaEvt.chunk [255] true))⟩
